import Mathlib

/-!
Shallow embedding of the ShareSafely upload gateway
(src/01-ShareSafely-File-Share/code/server.js).

The server's pure computations (filename sanitization, blob-name
derivation, content-type lookup, SAS window arithmetic) are translated
directly into Lean functions.  The stateful request handlers are
modelled as functions from an environment, a collaborator-outcome
record (the Azure blob store is an external collaborator whose calls
may succeed or fail), a record of clock readings, and the parsed
request, to an HTTP response together with the list of outbound store
calls made during the request, in order.
-/

namespace ShareSafely

/-! ## Filename sanitization and blob-name derivation (server.js lines 136-138) -/

/-- Characters kept by the regex replace
originalFileName.replace of all characters outside a-zA-Z0-9.- :
ASCII letters, ASCII digits, dot and hyphen. -/
def allowedChar (c : Char) : Bool :=
  c.isAlphanum || c == '.' || c == '-'

/-- A single character after the global regex replace: characters outside
the allowed class become an underscore. -/
def sanitizeChar (c : Char) : Char :=
  if allowedChar c then c else '_'

/-- The sanitized file name: every character outside a-zA-Z0-9.- is
replaced by an underscore (server.js line 137). -/
def sanitizeFileName (s : String) : String :=
  ⟨s.data.map sanitizeChar⟩

/-- The derived blob name: decimal millisecond timestamp, a hyphen, then
the sanitized original file name (server.js line 138). -/
def blobNameFor (timestamp : Nat) (originalFileName : String) : String :=
  Nat.repr timestamp ++ "-" ++ sanitizeFileName originalFileName

/-! ## Key pattern of the spec: digits, hyphen, then key-tail characters -/

/-- Characters admitted by the tail class A-Za-z0-9._- of the spec's key
pattern. -/
def keyTailChar (c : Char) : Bool :=
  c.isAlphanum || c == '.' || c == '_' || c == '-'

/-- Executable matcher for the anchored pattern: one or more digits, a
hyphen, then one or more tail-class characters.  Because the tail may
itself contain digits and hyphens, the pattern is matched by taking the
maximal leading digit run and requiring the very next character to be a
hyphen; this is equivalent to the regex with backtracking, since a
shorter digit prefix would put a digit where the hyphen must be. -/
def keyPatternMatch (s : String) : Bool :=
  (!(s.data.takeWhile Char.isDigit).isEmpty) &&
    (match s.data.dropWhile Char.isDigit with
     | '-' :: t => (!t.isEmpty) && t.all keyTailChar
     | _ => false)

/-! ## Content type lookup (server.js lines 173-192) -/

/-- The static extension-to-MIME table of getContentType. -/
def contentTypes : List (String × String) :=
  [ (".pdf", "application/pdf"),
    (".doc", "application/msword"),
    (".docx", "application/vnd.openxmlformats-officedocument.wordprocessingml.document"),
    (".xls", "application/vnd.ms-excel"),
    (".xlsx", "application/vnd.openxmlformats-officedocument.spreadsheetml.sheet"),
    (".ppt", "application/vnd.ms-powerpoint"),
    (".pptx", "application/vnd.openxmlformats-officedocument.presentationml.presentation"),
    (".txt", "text/plain"),
    (".jpg", "image/jpeg"),
    (".jpeg", "image/jpeg"),
    (".png", "image/png"),
    (".gif", "image/gif"),
    (".zip", "application/zip"),
    (".rar", "application/x-rar-compressed") ]

/-- Model of Node's path.extname on the file name: the portion of the
basename (after the last slash, ignoring trailing slashes) from its last
dot to its end; empty when the basename has no dot, when its only
leading position holds the last dot, or when the basename is exactly
two dots. -/
def extname (p : String) : String :=
  let rev := p.data.reverse
  let revNoSlash := rev.dropWhile (fun c => c == '/')
  let baseRev := revNoSlash.takeWhile (fun c => c != '/')
  let afterRev := baseRev.takeWhile (fun c => c != '.')
  if afterRev.length == baseRev.length then ""
  else
    let base := baseRev.reverse
    let i := base.length - afterRev.length - 1
    if i == 0 then ""
    else if base == ['.', '.'] then ""
    else ⟨base.drop i⟩

/-- ASCII lower-casing of the extension, as applied before the table
lookup. -/
def lowerAscii (s : String) : String :=
  ⟨s.data.map Char.toLower⟩

/-- getContentType: look the lower-cased extension up in the static
table; unknown extensions fall back to the generic binary type. -/
def getContentType (fileName : String) : String :=
  match contentTypes.lookup (lowerAscii (extname fileName)) with
  | some v => v
  | none => "application/octet-stream"

/-! ## Configuration (server.js lines 42-45) -/

/-- Model of the JavaScript parseInt builtin on a plain decimal string:
optional surrounding space, optional sign, then a maximal run of leading
digits; none models NaN when no digit is found. -/
def jsParseInt (s : String) : Option Int :=
  let t := s.data.dropWhile (fun c => c == ' ')
  let signed : Bool × List Char :=
    match t with
    | '-' :: r => (true, r)
    | '+' :: r => (false, r)
    | r => (false, r)
  let ds := signed.2.takeWhile Char.isDigit
  if ds.isEmpty then none
  else
    let n : Nat := ds.foldl (fun a c => 10 * a + (c.toNat - '0'.toNat)) 0
    some (if signed.1 then -(n : Int) else (n : Int))

/-- sasExpiryMinutes as resolved at startup: parseInt of the environment
variable when set, of the string 60 otherwise (server.js line 45). -/
def sasExpiryMinutesConfig (envVal : Option String) : Option Int :=
  jsParseInt (envVal.getD "60")

/-- The multer in-memory file-size ceiling: 100 MiB (server.js line 38). -/
def fileSizeLimit : Nat := 100 * 1024 * 1024

/-! ## Data model of a request and its collaborators -/

/-- A parsed multipart file as multer presents it on the request. -/
structure UploadedFile where
  originalname : String
  mimetype : String
  buffer : List Nat
deriving DecidableEq

/-- The configuration the server resolved at startup. -/
structure Env where
  storageAccountName : String
  containerName : String
  sasExpiryMinutes : Nat
deriving DecidableEq

/-- The user delegation key returned by the store's credential
authority. -/
structure UserDelegationKey where
  keyValue : String
deriving DecidableEq

/-- Outcomes of the three outbound collaborator calls a request can
make; the store is external, so each call may succeed or fail with a
message. -/
structure Collab where
  createRes : Except String Unit
  writeRes : Except String Unit
  keyRes : Except String UserDelegationKey

/-- The clock readings a single request takes: Date.now() inside
uploadFileToBlob (line 136), new Date() inside
generateUserDelegationSAS (line 75), and Date.now() when composing the
response (line 231).  All are milliseconds since the epoch. -/
structure Clock where
  uploadNow : Nat
  sasNow : Nat
  respNow : Nat
deriving DecidableEq

/-- One outbound call to the backing store, recorded in order.  The
deleteObject operation exists in the collaborator's API but is included
here only so that its absence from every trace is expressible. -/
inductive StoreCall where
  | createIfNotExists (container : String)
  | writeObject (container blobName : String) (body : List Nat) (contentType : String)
  | getUserDelegationKey (startsOn expiresOn : Int)
  | deleteObject (container blobName : String)
deriving DecidableEq

/-- The write calls of a trace. -/
def writeCalls (t : List StoreCall) : List StoreCall :=
  t.filter fun c =>
    match c with
    | .writeObject _ _ _ _ => true
    | _ => false

/-! ## SAS model (server.js lines 72-124) -/

/-- The permission flags of BlobSASPermissions in the storage SDK. -/
structure BlobSASPermissions where
  read : Bool := false
  add : Bool := false
  create : Bool := false
  write : Bool := false
  delete : Bool := false
  deleteVersion : Bool := false
  tag : Bool := false
  move : Bool := false
  execute : Bool := false
  setImmutabilityPolicy : Bool := false
  permanentDelete : Bool := false
deriving DecidableEq

/-- BlobSASPermissions.parse of the SDK: fold over the permission
string, setting one flag per recognized character, failing on any
other character. -/
def BlobSASPermissions.parse (s : String) : Except String BlobSASPermissions :=
  s.data.foldlM
    (fun p c =>
      match c with
      | 'r' => .ok { p with read := true }
      | 'a' => .ok { p with add := true }
      | 'c' => .ok { p with create := true }
      | 'w' => .ok { p with write := true }
      | 'd' => .ok { p with delete := true }
      | 'x' => .ok { p with deleteVersion := true }
      | 't' => .ok { p with tag := true }
      | 'm' => .ok { p with move := true }
      | 'e' => .ok { p with execute := true }
      | 'i' => .ok { p with setImmutabilityPolicy := true }
      | 'y' => .ok { p with permanentDelete := true }
      | _ => .error "Invalid permission")
    {}

/-- The read-only permission record. -/
def readOnlyPerms : BlobSASPermissions := { read := true }

/-- The content of the signed SAS query parameters: resource identity,
permissions, protocol restriction, validity window and signing
material (server.js lines 94-108). -/
structure SasToken where
  containerName : String
  blobName : String
  permissions : BlobSASPermissions
  protocol : String
  startsOn : Int
  expiresOn : Int
  signedKey : UserDelegationKey
  accountName : String
deriving DecidableEq

/-- The SAS URL returned to the caller: the blob's canonical location
plus the signed query parameters (server.js line 115). -/
structure SasUrl where
  blobUrl : String
  token : SasToken
deriving DecidableEq

/-- The canonical blob location used as the base of the SAS URL. -/
def sasBlobUrl (env : Env) (blobName : String) : String :=
  "https://" ++ env.storageAccountName ++ ".blob.core.windows.net/" ++
    env.containerName ++ "/" ++ blobName

/-! ## HTTP responses -/

/-- The JSON bodies the server produces. -/
inductive ResponseBody where
  | errorBody (error : String) (details : Option String)
  | uploadSuccess (success : Bool) (message fileName blobName : String)
      (sasUrl : SasUrl) (expiresAt : Int) (expiresInMinutes : Nat)
  | healthBody (status storageAccount container : String) (sasExpiryMinutes : Nat)
deriving DecidableEq

/-- An HTTP response: status code and JSON body. -/
structure HttpResponse where
  status : Nat
  body : ResponseBody
deriving DecidableEq

/-- The SAS token of a success body, when present. -/
def sasTokenOf : ResponseBody → Option SasToken
  | .uploadSuccess _ _ _ _ u _ _ => some u.token
  | _ => none

/-- The expiresAt field of a success body, when present. -/
def expiresAtOf : ResponseBody → Option Int
  | .uploadSuccess _ _ _ _ _ e _ => some e
  | _ => none

/-- The fileName field of a success body, when present. -/
def fileNameFieldOf : ResponseBody → Option String
  | .uploadSuccess _ _ f _ _ _ _ => some f
  | _ => none

/-- The blobName field of a success body, when present. -/
def blobNameFieldOf : ResponseBody → Option String
  | .uploadSuccess _ _ _ b _ _ _ => some b
  | _ => none

/-! ## The request handlers -/

/-- uploadFileToBlob (server.js lines 133-168): derive the blob name
from the upload-time clock reading and the sanitized original name,
ensure the container exists, then write the buffer under that name
tagged with the looked-up content type.  Returns the trace of store
calls made together with the blob name, or the error that was thrown. -/
def uploadFileToBlob (env : Env) (collab : Collab) (uploadNow : Nat)
    (fileBuffer : List Nat) (originalFileName : String) :
    List StoreCall × Except String String :=
  let blobName := blobNameFor uploadNow originalFileName
  let contentType := getContentType originalFileName
  match collab.createRes with
  | .error e => ([.createIfNotExists env.containerName], .error e)
  | .ok _ =>
    match collab.writeRes with
    | .error e =>
        ([.createIfNotExists env.containerName,
          .writeObject env.containerName blobName fileBuffer contentType],
         .error e)
    | .ok _ =>
        ([.createIfNotExists env.containerName,
          .writeObject env.containerName blobName fileBuffer contentType],
         .ok blobName)

/-- generateUserDelegationSAS (server.js lines 72-124): compute the
validity window from the SAS-time clock reading, request a user
delegation key for that window, parse the read permission, and build
the signed URL. -/
def generateUserDelegationSAS (env : Env) (collab : Collab) (sasNow : Nat)
    (blobName : String) : List StoreCall × Except String SasUrl :=
  let tenMinutesBefore : Int := (sasNow : Int) - 10 * 60 * 1000
  let expiryTime : Int := (sasNow : Int) + (env.sasExpiryMinutes : Int) * 60 * 1000
  match collab.keyRes with
  | .error e => ([.getUserDelegationKey tenMinutesBefore expiryTime], .error e)
  | .ok userDelegationKey =>
    match BlobSASPermissions.parse "r" with
    | .error e => ([.getUserDelegationKey tenMinutesBefore expiryTime], .error e)
    | .ok sasPermissions =>
        ([.getUserDelegationKey tenMinutesBefore expiryTime],
         .ok { blobUrl := sasBlobUrl env blobName,
               token := { containerName := env.containerName,
                          blobName := blobName,
                          permissions := sasPermissions,
                          protocol := "https",
                          startsOn := tenMinutesBefore,
                          expiresOn := expiryTime,
                          signedKey := userDelegationKey,
                          accountName := env.storageAccountName } })

/-- The upload route handler (server.js lines 210-253): 400 when no
file is on the request; otherwise write the blob, then mint the SAS
URL, then respond 200 with the success body; any thrown error is
caught and reported as a 500 with the generic upload-failure message
and the error's detail. -/
def handleUploadRoute (env : Env) (collab : Collab) (clock : Clock)
    (reqFile : Option UploadedFile) : HttpResponse × List StoreCall :=
  match reqFile with
  | none =>
      ({ status := 400,
         body := .errorBody "No file uploaded. Please select a file." none }, [])
  | some f =>
    let up := uploadFileToBlob env collab clock.uploadNow f.buffer f.originalname
    match up.2 with
    | .error e =>
        ({ status := 500,
           body := .errorBody "Failed to upload file. Please try again." (some e) },
         up.1)
    | .ok blobName =>
      let gen := generateUserDelegationSAS env collab clock.sasNow blobName
      match gen.2 with
      | .error e =>
          ({ status := 500,
             body := .errorBody "Failed to upload file. Please try again." (some e) },
           up.1 ++ gen.1)
      | .ok sasUrl =>
          let expiresAt : Int :=
            (clock.respNow : Int) + (env.sasExpiryMinutes : Int) * 60 * 1000
          ({ status := 200,
             body := .uploadSuccess true "File uploaded successfully!"
               f.originalname blobName sasUrl expiresAt env.sasExpiryMinutes },
           up.1 ++ gen.1)

/-- The full upload pipeline: multer parses the multipart body before
the route handler runs; a file whose byte count exceeds the configured
ceiling makes multer raise LIMIT_FILE_SIZE (message File too large),
which bypasses the route and lands in the catch-all error middleware
(server.js lines 256-262), producing a generic 500 with no store call
made. -/
def processUploadRequest (env : Env) (collab : Collab) (clock : Clock)
    (rawFile : Option UploadedFile) : HttpResponse × List StoreCall :=
  match rawFile with
  | some f =>
      if f.buffer.length > fileSizeLimit then
        ({ status := 500,
           body := .errorBody "An unexpected error occurred" (some "File too large") },
         [])
      else handleUploadRoute env collab clock (some f)
  | none => handleUploadRoute env collab clock none

/-- The health route handler (server.js lines 200-207): always 200
with the configured values; the collaborator is in scope but unused,
so the response is the same whatever the store outcomes would be. -/
def handleHealthRoute (env : Env) (_collab : Collab) : HttpResponse × List StoreCall :=
  ({ status := 200,
     body := .healthBody "healthy" env.storageAccountName env.containerName
       env.sasExpiryMinutes }, [])

/-! ## Concrete fixtures for witnesses and counterexamples -/

/-- A concrete environment. -/
def envA : Env :=
  { storageAccountName := "acct", containerName := "uploaded-files", sasExpiryMinutes := 60 }

/-- A concrete user delegation key. -/
def keyA : UserDelegationKey := { keyValue := "key" }

/-- Collaborator outcomes where every call succeeds. -/
def collabOk : Collab :=
  { createRes := .ok (), writeRes := .ok (), keyRes := .ok keyA }

/-- Collaborator outcomes where the delegation-key call fails after the
write succeeded. -/
def collabKeyFail : Collab :=
  { createRes := .ok (), writeRes := .ok (), keyRes := .error "boom" }

/-- A concrete set of clock readings. -/
def clockA : Clock := { uploadNow := 1000, sasNow := 1000, respNow := 1000 }

/-- A present but zero-byte upload. -/
def emptyFile : UploadedFile :=
  { originalname := "a.txt", mimetype := "text/plain", buffer := [] }

/-- A small ordinary upload whose name holds a space. -/
def smallFile : UploadedFile :=
  { originalname := "a b.txt", mimetype := "text/plain", buffer := [1, 2, 3] }

/-- An upload one byte over the 100 MiB ceiling. -/
def bigFile : UploadedFile :=
  { originalname := "big.bin", mimetype := "application/octet-stream",
    buffer := List.replicate (fileSizeLimit + 1) 0 }

/-! ## Helper lemmas -/

theorem sanitizeChar_idem (c : Char) : sanitizeChar (sanitizeChar c) = sanitizeChar c := by
  by_cases h : allowedChar c = true
  · simp [sanitizeChar, h]
  · simp [sanitizeChar, h]

theorem sanitizeFileName_idem (s : String) :
    sanitizeFileName (sanitizeFileName s) = sanitizeFileName s := by
  unfold sanitizeFileName
  refine congrArg String.mk ?_
  show (s.data.map sanitizeChar).map sanitizeChar = s.data.map sanitizeChar
  rw [List.map_map]
  exact List.map_congr_left fun a _ => sanitizeChar_idem a

theorem sanitizeChar_keyTail (c : Char) : keyTailChar (sanitizeChar c) = true := by
  unfold sanitizeChar
  by_cases h : allowedChar c = true
  · simp only [if_pos h]
    unfold allowedChar at h
    unfold keyTailChar
    simp only [Bool.or_eq_true] at h ⊢
    tauto
  · rw [if_neg h]; decide

theorem digitChar_isDigit {m : Nat} (h : m < 10) : (Nat.digitChar m).isDigit = true := by
  interval_cases m <;> decide

theorem toDigitsCore_digits :
    ∀ (fuel n : Nat) (ds : List Char), (∀ c ∈ ds, c.isDigit = true) →
      ∀ c ∈ Nat.toDigitsCore 10 fuel n ds, c.isDigit = true := by
  intro fuel
  induction fuel with
  | zero =>
      intro n ds h c hc
      simp only [Nat.toDigitsCore] at hc
      exact h c hc
  | succ f ih =>
      intro n ds h c hc
      simp only [Nat.toDigitsCore] at hc
      by_cases hz : n / 10 = 0
      · rw [if_pos hz] at hc
        rcases List.mem_cons.mp hc with h1 | h1
        · exact h1 ▸ digitChar_isDigit (Nat.mod_lt n (by decide))
        · exact h c h1
      · rw [if_neg hz] at hc
        refine ih (n / 10) (Nat.digitChar (n % 10) :: ds) ?_ c hc
        intro d hd
        rcases List.mem_cons.mp hd with h1 | h1
        · exact h1 ▸ digitChar_isDigit (Nat.mod_lt n (by decide))
        · exact h d h1

theorem toDigitsCore_length_le :
    ∀ (fuel n : Nat) (ds : List Char), ds.length ≤ (Nat.toDigitsCore 10 fuel n ds).length := by
  intro fuel
  induction fuel with
  | zero => intro n ds; simp [Nat.toDigitsCore]
  | succ f ih =>
      intro n ds
      simp only [Nat.toDigitsCore]
      by_cases hz : n / 10 = 0
      · rw [if_pos hz]; simp
      · rw [if_neg hz]
        calc ds.length ≤ (Nat.digitChar (n % 10) :: ds).length := by simp
          _ ≤ _ := ih (n / 10) (Nat.digitChar (n % 10) :: ds)

theorem toDigits_ne_nil (n : Nat) : Nat.toDigits 10 n ≠ [] := by
  unfold Nat.toDigits
  simp only [Nat.toDigitsCore]
  by_cases hz : n / 10 = 0
  · rw [if_pos hz]; simp
  · rw [if_neg hz]
    intro h
    have hle := toDigitsCore_length_le n (n / 10) [Nat.digitChar (n % 10)]
    rw [h] at hle
    simp at hle

theorem repr_data_digits (n : Nat) : ∀ c ∈ (Nat.repr n).data, c.isDigit = true := by
  intro c hc
  have : (Nat.repr n).data = Nat.toDigits 10 n := rfl
  rw [this] at hc
  exact toDigitsCore_digits (n + 1) n [] (by simp) c hc

theorem repr_data_ne_nil (n : Nat) : (Nat.repr n).data ≠ [] := by
  have : (Nat.repr n).data = Nat.toDigits 10 n := rfl
  rw [this]
  exact toDigits_ne_nil n

theorem repr_length_pos (n : Nat) : 0 < (Nat.repr n).length :=
  List.length_pos.mpr (repr_data_ne_nil n)

theorem takeWhile_append_stop {p : Char → Bool} :
    ∀ (A : List Char) (x : Char) (B : List Char), (∀ a ∈ A, p a = true) → p x = false →
      (A ++ x :: B).takeWhile p = A ∧ (A ++ x :: B).dropWhile p = x :: B := by
  intro A
  induction A with
  | nil =>
      intro x B _ hx
      constructor
      · simp [List.takeWhile_cons, hx]
      · simp [List.dropWhile_cons, hx]
  | cons a A ih =>
      intro x B h hx
      have ha : p a = true := h a (by simp)
      have ih' := ih x B (fun b hb => h b (by simp [hb])) hx
      constructor
      · simp [List.takeWhile_cons, ha, ih'.1]
      · simp [List.dropWhile_cons, ha, ih'.2]

theorem blobNameFor_data (ts : Nat) (name : String) :
    (blobNameFor ts name).data =
      (Nat.repr ts).data ++ '-' :: name.data.map sanitizeChar := by
  unfold blobNameFor sanitizeFileName
  rw [String.data_append, String.data_append]
  have hdash : "-".data = ['-'] := rfl
  rw [hdash, List.append_assoc]
  rfl

theorem keyPatternMatch_blobName (ts : Nat) (name : String) (h : name ≠ "") :
    keyPatternMatch (blobNameFor ts name) = true := by
  have hname : name.data ≠ [] := by
    intro hd; exact h (congrArg String.mk hd)
  have hsplit :=
    takeWhile_append_stop (p := Char.isDigit) (Nat.repr ts).data '-'
      (name.data.map sanitizeChar) (repr_data_digits ts) (by decide)
  unfold keyPatternMatch
  rw [blobNameFor_data, hsplit.1, hsplit.2]
  have h1 : (Nat.repr ts).data.isEmpty = false := by
    simp [List.isEmpty_eq_false, repr_data_ne_nil ts]
  have h2 : (name.data.map sanitizeChar).isEmpty = false := by
    simp [List.isEmpty_eq_false, hname]
  have h3 : (name.data.map sanitizeChar).all keyTailChar = true := by
    simp only [List.all_eq_true]
    intro c hc
    rcases List.mem_map.mp hc with ⟨a, _, rfl⟩
    exact sanitizeChar_keyTail a
  simp [h1, h2, h3]

theorem sanitizeFileName_length (s : String) : (sanitizeFileName s).length = s.length := by
  unfold sanitizeFileName
  show (s.data.map sanitizeChar).length = s.length
  rw [List.length_map]
  rfl

theorem blobNameFor_length (ts : Nat) (name : String) :
    (blobNameFor ts name).length = (Nat.repr ts).length + 1 + name.length := by
  unfold blobNameFor
  rw [String.length_append, String.length_append, sanitizeFileName_length]
  rfl

theorem ne_blobNameFor (ts : Nat) (name : String) : name ≠ blobNameFor ts name := by
  intro h
  have hlen := congrArg String.length h
  rw [blobNameFor_length] at hlen
  have hpos := repr_length_pos ts
  omega

theorem lookup_none_of_ne :
    ∀ (l : List (String × String)) (k : String), (∀ p ∈ l, p.1 ≠ k) → l.lookup k = none := by
  intro l
  induction l with
  | nil => intro k _; rfl
  | cons p l ih =>
      intro k h
      have hp : (k == p.1) = false := by
        exact beq_eq_false_iff_ne.mpr fun he => h p (by simp) he.symm
      obtain ⟨p1, p2⟩ := p
      simp only [List.lookup, hp]
      exact ih k fun q hq => h q (by simp [hq])

/-! ## Characterization of the upload pipeline, one lemma per outcome -/

theorem parse_r_eq : BlobSASPermissions.parse "r" = .ok readOnlyPerms := rfl

theorem processUpload_none (env : Env) (collab : Collab) (clock : Clock) :
    processUploadRequest env collab clock none =
      ({ status := 400,
         body := .errorBody "No file uploaded. Please select a file." none }, []) := rfl

theorem processUpload_oversize (env : Env) (collab : Collab) (clock : Clock)
    (f : UploadedFile) (hf : f.buffer.length > fileSizeLimit) :
    processUploadRequest env collab clock (some f) =
      ({ status := 500,
         body := .errorBody "An unexpected error occurred" (some "File too large") },
       []) := by
  simp only [processUploadRequest]
  rw [if_pos hf]

theorem processUpload_createFail (env : Env) (collab : Collab) (clock : Clock)
    (f : UploadedFile) (e : String)
    (hc : collab.createRes = .error e) (hsize : f.buffer.length ≤ fileSizeLimit) :
    processUploadRequest env collab clock (some f) =
      ({ status := 500,
         body := .errorBody "Failed to upload file. Please try again." (some e) },
       [.createIfNotExists env.containerName]) := by
  have hle : ¬ f.buffer.length > fileSizeLimit := by omega
  simp only [processUploadRequest, handleUploadRoute, uploadFileToBlob, hc, hle,
    if_false]

theorem processUpload_writeFail (env : Env) (collab : Collab) (clock : Clock)
    (f : UploadedFile) (e : String)
    (hc : collab.createRes = .ok ()) (hw : collab.writeRes = .error e)
    (hsize : f.buffer.length ≤ fileSizeLimit) :
    processUploadRequest env collab clock (some f) =
      ({ status := 500,
         body := .errorBody "Failed to upload file. Please try again." (some e) },
       [.createIfNotExists env.containerName,
        .writeObject env.containerName (blobNameFor clock.uploadNow f.originalname)
          f.buffer (getContentType f.originalname)]) := by
  have hle : ¬ f.buffer.length > fileSizeLimit := by omega
  simp only [processUploadRequest, handleUploadRoute, uploadFileToBlob, hc, hw, hle,
    if_false]

theorem processUpload_keyFail (env : Env) (collab : Collab) (clock : Clock)
    (f : UploadedFile) (e : String)
    (hc : collab.createRes = .ok ()) (hw : collab.writeRes = .ok ())
    (hk : collab.keyRes = .error e) (hsize : f.buffer.length ≤ fileSizeLimit) :
    processUploadRequest env collab clock (some f) =
      ({ status := 500,
         body := .errorBody "Failed to upload file. Please try again." (some e) },
       [.createIfNotExists env.containerName,
        .writeObject env.containerName (blobNameFor clock.uploadNow f.originalname)
          f.buffer (getContentType f.originalname),
        .getUserDelegationKey ((clock.sasNow : Int) - 10 * 60 * 1000)
          ((clock.sasNow : Int) + (env.sasExpiryMinutes : Int) * 60 * 1000)]) := by
  have hle : ¬ f.buffer.length > fileSizeLimit := by omega
  simp only [processUploadRequest, handleUploadRoute, uploadFileToBlob,
    generateUserDelegationSAS, hc, hw, hk, hle, if_false]
  rfl

theorem processUpload_success (env : Env) (collab : Collab) (k : UserDelegationKey)
    (clock : Clock) (f : UploadedFile)
    (hc : collab.createRes = .ok ()) (hw : collab.writeRes = .ok ())
    (hk : collab.keyRes = .ok k) (hsize : f.buffer.length ≤ fileSizeLimit) :
    processUploadRequest env collab clock (some f) =
      ({ status := 200,
         body := .uploadSuccess true "File uploaded successfully!" f.originalname
           (blobNameFor clock.uploadNow f.originalname)
           { blobUrl := sasBlobUrl env (blobNameFor clock.uploadNow f.originalname),
             token := { containerName := env.containerName,
                        blobName := blobNameFor clock.uploadNow f.originalname,
                        permissions := readOnlyPerms,
                        protocol := "https",
                        startsOn := (clock.sasNow : Int) - 10 * 60 * 1000,
                        expiresOn := (clock.sasNow : Int) +
                          (env.sasExpiryMinutes : Int) * 60 * 1000,
                        signedKey := k,
                        accountName := env.storageAccountName } }
           ((clock.respNow : Int) + (env.sasExpiryMinutes : Int) * 60 * 1000)
           env.sasExpiryMinutes },
       [.createIfNotExists env.containerName,
        .writeObject env.containerName (blobNameFor clock.uploadNow f.originalname)
          f.buffer (getContentType f.originalname),
        .getUserDelegationKey ((clock.sasNow : Int) - 10 * 60 * 1000)
          ((clock.sasNow : Int) + (env.sasExpiryMinutes : Int) * 60 * 1000)]) := by
  have hle : ¬ f.buffer.length > fileSizeLimit := by omega
  simp only [processUploadRequest, handleUploadRoute, uploadFileToBlob,
    generateUserDelegationSAS, hc, hw, hk, parse_r_eq, hle, if_false]
  rfl

/-! ## Claims -/

/-- C1 counterexample: the claim says an absent or empty (zero-byte)
payload yields the 400 InvalidRequest response with no store write; for
the present zero-byte file the handler instead answers 200 and the
store write is invoked. -/
theorem c1_empty_payload_counterexample :
    emptyFile.buffer = [] ∧
    (processUploadRequest envA collabOk clockA (some emptyFile)).1.status = 200 ∧
    writeCalls (processUploadRequest envA collabOk clockA (some emptyFile)).2 =
      [.writeObject "uploaded-files" "1000-a.txt" [] "text/plain"] := by
  refine ⟨rfl, ?_, ?_⟩ <;> decide

/-- C1 amended: only an absent payload is rejected with the
InvalidRequest error: a request with no file gets status 400 and no
store call is made; a present zero-byte payload is not rejected — the
backing-store write is invoked for it with an empty body. -/
theorem c1_absent_payload_rejected :
    (∀ (env : Env) (collab : Collab) (clock : Clock),
      processUploadRequest env collab clock none =
        ({ status := 400,
           body := .errorBody "No file uploaded. Please select a file." none }, [])) ∧
    (∀ (env : Env) (collab : Collab) (clock : Clock) (f : UploadedFile),
      collab.createRes = .ok () → f.buffer = [] →
      writeCalls (processUploadRequest env collab clock (some f)).2 =
        [.writeObject env.containerName (blobNameFor clock.uploadNow f.originalname) []
          (getContentType f.originalname)]) := by
  constructor
  · intro env collab clock
    exact processUpload_none env collab clock
  · intro env collab clock f hc hbuf
    have hsize : f.buffer.length ≤ fileSizeLimit := by
      rw [hbuf]; simp [fileSizeLimit]
    cases hw : collab.writeRes with
    | error e =>
        rw [processUpload_writeFail env collab clock f e hc hw hsize, hbuf]
        rfl
    | ok u =>
        cases u
        cases hk : collab.keyRes with
        | error e =>
            rw [processUpload_keyFail env collab clock f e hc hw hk hsize, hbuf]
            rfl
        | ok k =>
            rw [processUpload_success env collab k clock f hc hw hk hsize, hbuf]
            rfl

/-- C1 witness: the amended claim applied to the concrete zero-byte
upload. -/
theorem c1_absent_payload_rejected_witness :
    writeCalls (processUploadRequest envA collabOk clockA (some emptyFile)).2 =
      [.writeObject envA.containerName (blobNameFor clockA.uploadNow emptyFile.originalname) []
        (getContentType emptyFile.originalname)] :=
  c1_absent_payload_rejected.2 envA collabOk clockA emptyFile rfl rfl

/-- C2 counterexample: an upload one byte over the 100 MiB ceiling is
answered with the generic catch-all 500 response, not a PayloadTooLarge
413-class error; no store write is attempted. -/
theorem c2_oversize_counterexample :
    processUploadRequest envA collabOk clockA (some bigFile) =
      ({ status := 500,
         body := .errorBody "An unexpected error occurred" (some "File too large") },
       []) ∧
    (processUploadRequest envA collabOk clockA (some bigFile)).1.status ≠ 413 := by
  have hf : bigFile.buffer.length > fileSizeLimit := by
    simp only [bigFile, List.length_replicate]
    omega
  have h := processUpload_oversize envA collabOk clockA bigFile hf
  exact ⟨h, by rw [h]; decide⟩

/-- C2 amended: a payload over the 100 MiB ceiling is rejected before
the route handler runs, with no store write attempted, but the error
surfaces through the catch-all middleware as a generic HTTP 500 whose
detail is the parser's File too large message, not as a dedicated
413 PayloadTooLarge response. -/
theorem c2_oversize_rejected_500 (env : Env) (collab : Collab) (clock : Clock)
    (f : UploadedFile) (hf : f.buffer.length > fileSizeLimit) :
    processUploadRequest env collab clock (some f) =
      ({ status := 500,
         body := .errorBody "An unexpected error occurred" (some "File too large") },
       []) :=
  processUpload_oversize env collab clock f hf

/-- C2 witness: the amended claim applied to the concrete oversize
upload. -/
theorem c2_oversize_rejected_500_witness :
    processUploadRequest envA collabOk clockA (some bigFile) =
      ({ status := 500,
         body := .errorBody "An unexpected error occurred" (some "File too large") },
       []) :=
  c2_oversize_rejected_500 envA collabOk clockA bigFile
    (by simp only [bigFile, List.length_replicate]; omega)

/-- C3: for a successful upload processed at a single clock instant t,
the grant's validity window starts exactly ten minutes before t and
expires exactly sasExpiryMinutes minutes after t, the expiry timestamp
returned to the caller equals t plus the configured window, and the
configured window defaults to 60 minutes when the environment variable
is absent. -/
theorem c3_validity_window (env : Env) (collab : Collab) (k : UserDelegationKey)
    (t : Nat) (f : UploadedFile)
    (hc : collab.createRes = .ok ()) (hw : collab.writeRes = .ok ())
    (hk : collab.keyRes = .ok k) (hsize : f.buffer.length ≤ fileSizeLimit) :
    (∃ tok, sasTokenOf (processUploadRequest env collab ⟨t, t, t⟩ (some f)).1.body = some tok ∧
       tok.startsOn = (t : Int) - 10 * 60 * 1000 ∧
       tok.expiresOn = (t : Int) + (env.sasExpiryMinutes : Int) * 60 * 1000) ∧
    expiresAtOf (processUploadRequest env collab ⟨t, t, t⟩ (some f)).1.body =
      some ((t : Int) + (env.sasExpiryMinutes : Int) * 60 * 1000) ∧
    sasExpiryMinutesConfig none = some 60 := by
  rw [processUpload_success env collab k ⟨t, t, t⟩ f hc hw hk hsize]
  exact ⟨⟨_, rfl, rfl, rfl⟩, rfl, rfl⟩

/-- C3 witness: the window property applied to a concrete successful
upload at time 1000. -/
theorem c3_validity_window_witness :
    (∃ tok, sasTokenOf (processUploadRequest envA collabOk ⟨1000, 1000, 1000⟩
        (some smallFile)).1.body = some tok ∧
       tok.startsOn = (1000 : Int) - 10 * 60 * 1000 ∧
       tok.expiresOn = (1000 : Int) + (envA.sasExpiryMinutes : Int) * 60 * 1000) ∧
    expiresAtOf (processUploadRequest envA collabOk ⟨1000, 1000, 1000⟩
        (some smallFile)).1.body =
      some ((1000 : Int) + (envA.sasExpiryMinutes : Int) * 60 * 1000) ∧
    sasExpiryMinutesConfig none = some 60 :=
  c3_validity_window envA collabOk keyA 1000 smallFile rfl rfl rfl (by decide)

/-- C4 counterexample: sanitization is idempotent on the empty string,
but the key derived from the empty filename is the bare timestamp and
hyphen, which does not match the required pattern of one or more tail
characters after the hyphen; so the pattern half of the claim fails on
the empty string. -/
theorem c4_empty_name_counterexample :
    sanitizeFileName (sanitizeFileName "") = sanitizeFileName "" ∧
    keyPatternMatch (blobNameFor 1700000000000 "") = false := by
  exact ⟨rfl, by decide⟩

/-- C4 amended: sanitization is total and idempotent on every string,
and for every non-empty input filename the derived store key matches
the pattern of one or more digits, a hyphen, then one or more
characters of the class A-Za-z0-9._- ; the empty filename is the one
exception, yielding a key with nothing after the hyphen. -/
theorem c4_sanitize_idempotent_pattern :
    (∀ s : String, sanitizeFileName (sanitizeFileName s) = sanitizeFileName s) ∧
    (∀ (ts : Nat) (name : String), name ≠ "" →
      keyPatternMatch (blobNameFor ts name) = true) :=
  ⟨sanitizeFileName_idem, fun ts name h => keyPatternMatch_blobName ts name h⟩

/-- C4 witness: idempotence and the key pattern at concrete inputs. -/
theorem c4_sanitize_idempotent_pattern_witness :
    sanitizeFileName (sanitizeFileName "a b") = sanitizeFileName "a b" ∧
    keyPatternMatch (blobNameFor 1700000000000 "a b.txt") = true :=
  ⟨c4_sanitize_idempotent_pattern.1 "a b",
   c4_sanitize_idempotent_pattern.2 1700000000000 "a b.txt" (by decide)⟩

/-- C5: whenever the container is available, every upload issues exactly
one store write — whatever the write outcome and whatever the store
already holds — and its key is the decimal upload-time timestamp, a
hyphen, then the original filename with every character outside
a-zA-Z0-9.- replaced by an underscore; no collision check or retry
appears in any trace. -/
theorem c5_key_derivation (env : Env) (collab : Collab) (clock : Clock)
    (f : UploadedFile)
    (hc : collab.createRes = .ok ()) (hsize : f.buffer.length ≤ fileSizeLimit) :
    writeCalls (processUploadRequest env collab clock (some f)).2 =
      [.writeObject env.containerName
        (Nat.repr clock.uploadNow ++ "-" ++
          ⟨f.originalname.data.map (fun c => if allowedChar c then c else '_')⟩)
        f.buffer (getContentType f.originalname)] := by
  cases hw : collab.writeRes with
  | error e =>
      rw [processUpload_writeFail env collab clock f e hc hw hsize]
      rfl
  | ok u =>
      cases u
      cases hk : collab.keyRes with
      | error e =>
          rw [processUpload_keyFail env collab clock f e hc hw hk hsize]
          rfl
      | ok k =>
          rw [processUpload_success env collab k clock f hc hw hk hsize]
          rfl

/-- C5 witness: the key derivation applied to a concrete upload whose
name holds a space. -/
theorem c5_key_derivation_witness :
    writeCalls (processUploadRequest envA collabOk clockA (some smallFile)).2 =
      [.writeObject envA.containerName
        (Nat.repr clockA.uploadNow ++ "-" ++
          ⟨smallFile.originalname.data.map (fun c => if allowedChar c then c else '_')⟩)
        smallFile.buffer (getContentType smallFile.originalname)] :=
  c5_key_derivation envA collabOk clockA smallFile rfl (by decide)

/-- C6: a delegation-key request appears in a trace only when the write
of the derived key was acknowledged, and then the trace is exactly the
sequential create, write, key-request list with the key request last;
when key issuance fails after a successful write the request reports a
500 error; and no trace of any request, whatever the outcomes, holds a
compensating delete. -/
theorem c6_write_before_grant :
    (∀ (env : Env) (collab : Collab) (clock : Clock) (f : UploadedFile) (s e : Int),
      StoreCall.getUserDelegationKey s e ∈ (processUploadRequest env collab clock (some f)).2 →
      collab.writeRes = .ok () ∧
      (processUploadRequest env collab clock (some f)).2 =
        [.createIfNotExists env.containerName,
         .writeObject env.containerName (blobNameFor clock.uploadNow f.originalname)
           f.buffer (getContentType f.originalname),
         .getUserDelegationKey s e]) ∧
    (∀ (env : Env) (collab : Collab) (clock : Clock) (f : UploadedFile) (e : String),
      collab.createRes = .ok () → collab.writeRes = .ok () → collab.keyRes = .error e →
      f.buffer.length ≤ fileSizeLimit →
      (processUploadRequest env collab clock (some f)).1.status = 500) ∧
    (∀ (env : Env) (collab : Collab) (clock : Clock) (rawFile : Option UploadedFile)
      (c b : String),
      StoreCall.deleteObject c b ∉ (processUploadRequest env collab clock rawFile).2) := by
  refine ⟨?_, ?_, ?_⟩
  · intro env collab clock f s e hmem
    by_cases hsz : f.buffer.length > fileSizeLimit
    · rw [processUpload_oversize env collab clock f hsz] at hmem
      simp at hmem
    · have hsize : f.buffer.length ≤ fileSizeLimit := by omega
      cases hc : collab.createRes with
      | error e0 =>
          rw [processUpload_createFail env collab clock f e0 hc hsize] at hmem
          simp at hmem
      | ok u =>
          cases u
          cases hw : collab.writeRes with
          | error e0 =>
              rw [processUpload_writeFail env collab clock f e0 hc hw hsize] at hmem
              simp at hmem
          | ok u2 =>
              cases u2
              cases hk : collab.keyRes with
              | error e0 =>
                  have htr := processUpload_keyFail env collab clock f e0 hc hw hk hsize
                  rw [htr] at hmem
                  obtain ⟨rfl, rfl⟩ : s = (clock.sasNow : Int) - 10 * 60 * 1000 ∧
                      e = (clock.sasNow : Int) +
                        (env.sasExpiryMinutes : Int) * 60 * 1000 := by
                    simpa using hmem
                  exact ⟨rfl, congrArg Prod.snd htr⟩
              | ok k =>
                  have htr := processUpload_success env collab k clock f hc hw hk hsize
                  rw [htr] at hmem
                  obtain ⟨rfl, rfl⟩ : s = (clock.sasNow : Int) - 10 * 60 * 1000 ∧
                      e = (clock.sasNow : Int) +
                        (env.sasExpiryMinutes : Int) * 60 * 1000 := by
                    simpa using hmem
                  exact ⟨rfl, congrArg Prod.snd htr⟩
  · intro env collab clock f e hc hw hk hsize
    rw [processUpload_keyFail env collab clock f e hc hw hk hsize]
  · intro env collab clock rawFile c b
    cases rawFile with
    | none =>
        rw [processUpload_none env collab clock]
        simp
    | some f =>
        by_cases hsz : f.buffer.length > fileSizeLimit
        · rw [processUpload_oversize env collab clock f hsz]
          simp
        · have hsize : f.buffer.length ≤ fileSizeLimit := by omega
          cases hc : collab.createRes with
          | error e0 =>
              rw [processUpload_createFail env collab clock f e0 hc hsize]
              simp
          | ok u =>
              cases u
              cases hw : collab.writeRes with
              | error e0 =>
                  rw [processUpload_writeFail env collab clock f e0 hc hw hsize]
                  simp
              | ok u2 =>
                  cases u2
                  cases hk : collab.keyRes with
                  | error e0 =>
                      rw [processUpload_keyFail env collab clock f e0 hc hw hk hsize]
                      simp
                  | ok k =>
                      rw [processUpload_success env collab k clock f hc hw hk hsize]
                      simp

/-- C6 witness: with the delegation-key call failing after a successful
write of the concrete small upload, the trace is the sequential
create-write-key list, the response is a 500, and no delete occurs. -/
theorem c6_write_before_grant_witness :
    (collabKeyFail.writeRes = .ok () ∧
      (processUploadRequest envA collabKeyFail clockA (some smallFile)).2 =
        [.createIfNotExists envA.containerName,
         .writeObject envA.containerName (blobNameFor clockA.uploadNow smallFile.originalname)
           smallFile.buffer (getContentType smallFile.originalname),
         .getUserDelegationKey (-599000) 3601000]) ∧
    (processUploadRequest envA collabKeyFail clockA (some smallFile)).1.status = 500 ∧
    StoreCall.deleteObject "uploaded-files" "1000-a_b.txt" ∉
      (processUploadRequest envA collabKeyFail clockA (some smallFile)).2 :=
  ⟨c6_write_before_grant.1 envA collabKeyFail clockA smallFile (-599000) 3601000 (by decide),
   c6_write_before_grant.2.1 envA collabKeyFail clockA smallFile "boom" rfl rfl rfl (by decide),
   c6_write_before_grant.2.2 envA collabKeyFail clockA (some smallFile)
     "uploaded-files" "1000-a_b.txt"⟩

/-- C7: every successful upload's returned URL carries a grant whose
permission set has read alone — every writing, deleting, tagging or
moving flag is off — scoped to exactly the container and the one
uploaded blob, valid from ten minutes before the SAS clock reading
until the configured number of minutes after it. -/
theorem c7_read_only_grant (env : Env) (collab : Collab) (k : UserDelegationKey)
    (clock : Clock) (f : UploadedFile)
    (hc : collab.createRes = .ok ()) (hw : collab.writeRes = .ok ())
    (hk : collab.keyRes = .ok k) (hsize : f.buffer.length ≤ fileSizeLimit) :
    ∃ tok, sasTokenOf (processUploadRequest env collab clock (some f)).1.body = some tok ∧
      tok.permissions.read = true ∧
      tok.permissions.write = false ∧ tok.permissions.delete = false ∧
      tok.permissions.add = false ∧ tok.permissions.create = false ∧
      tok.permissions.deleteVersion = false ∧ tok.permissions.tag = false ∧
      tok.permissions.move = false ∧ tok.permissions.execute = false ∧
      tok.permissions.setImmutabilityPolicy = false ∧
      tok.permissions.permanentDelete = false ∧
      tok.containerName = env.containerName ∧
      tok.blobName = blobNameFor clock.uploadNow f.originalname ∧
      tok.startsOn = (clock.sasNow : Int) - 10 * 60 * 1000 ∧
      tok.expiresOn = (clock.sasNow : Int) + (env.sasExpiryMinutes : Int) * 60 * 1000 := by
  rw [processUpload_success env collab k clock f hc hw hk hsize]
  exact ⟨_, rfl, rfl, rfl, rfl, rfl, rfl, rfl, rfl, rfl, rfl, rfl, rfl, rfl, rfl, rfl, rfl⟩

/-- C7 witness: the read-only grant property at a concrete successful
upload. -/
theorem c7_read_only_grant_witness :
    ∃ tok, sasTokenOf (processUploadRequest envA collabOk clockA
        (some smallFile)).1.body = some tok ∧
      tok.permissions.read = true ∧
      tok.permissions.write = false ∧ tok.permissions.delete = false ∧
      tok.permissions.add = false ∧ tok.permissions.create = false ∧
      tok.permissions.deleteVersion = false ∧ tok.permissions.tag = false ∧
      tok.permissions.move = false ∧ tok.permissions.execute = false ∧
      tok.permissions.setImmutabilityPolicy = false ∧
      tok.permissions.permanentDelete = false ∧
      tok.containerName = envA.containerName ∧
      tok.blobName = blobNameFor clockA.uploadNow smallFile.originalname ∧
      tok.startsOn = (clockA.sasNow : Int) - 10 * 60 * 1000 ∧
      tok.expiresOn = (clockA.sasNow : Int) + (envA.sasExpiryMinutes : Int) * 60 * 1000 :=
  c7_read_only_grant envA collabOk keyA clockA smallFile rfl rfl rfl (by decide)

/-- C8: the tagged content type factors through the lower-cased
extension via the static table — two filenames with the same extension
get the same type — and any filename whose extension matches no table
key gets the generic binary type. -/
theorem c8_content_type_lookup :
    (∀ f g : String, lowerAscii (extname f) = lowerAscii (extname g) →
      getContentType f = getContentType g) ∧
    (∀ f : String, (∀ p ∈ contentTypes, p.1 ≠ lowerAscii (extname f)) →
      getContentType f = "application/octet-stream") := by
  constructor
  · intro f g h
    unfold getContentType
    rw [h]
  · intro f h
    unfold getContentType
    rw [lookup_none_of_ne contentTypes (lowerAscii (extname f)) h]

/-- C8 witness: the factoring and the fallback at concrete filenames. -/
theorem c8_content_type_lookup_witness :
    getContentType "x.TXT" = getContentType "y.txt" ∧
    getContentType "file.xyz" = "application/octet-stream" :=
  ⟨c8_content_type_lookup.1 "x.TXT" "y.txt" (by decide),
   c8_content_type_lookup.2 "file.xyz" (by decide)⟩

/-- C9: the health route always answers 200 with the configured storage
account, container and expiry minutes, makes no store call, and its
response is the same whatever the store collaborator's outcomes are. -/
theorem c9_health_route (env : Env) (collab : Collab) :
    handleHealthRoute env collab =
      ({ status := 200,
         body := .healthBody "healthy" env.storageAccountName env.containerName
           env.sasExpiryMinutes }, []) := rfl

/-- C10: on every successful upload the response's fileName field is the
original filename unchanged while the blobName field is the
timestamp-prefixed sanitized key, and when the original name holds any
character outside a-zA-Z0-9.- the two fields differ. -/
theorem c10_filename_fields (env : Env) (collab : Collab) (k : UserDelegationKey)
    (clock : Clock) (f : UploadedFile)
    (hc : collab.createRes = .ok ()) (hw : collab.writeRes = .ok ())
    (hk : collab.keyRes = .ok k) (hsize : f.buffer.length ≤ fileSizeLimit) :
    fileNameFieldOf (processUploadRequest env collab clock (some f)).1.body =
      some f.originalname ∧
    blobNameFieldOf (processUploadRequest env collab clock (some f)).1.body =
      some (blobNameFor clock.uploadNow f.originalname) ∧
    ((∃ c ∈ f.originalname.data, allowedChar c = false) →
      f.originalname ≠ blobNameFor clock.uploadNow f.originalname) := by
  rw [processUpload_success env collab k clock f hc hw hk hsize]
  exact ⟨rfl, rfl, fun _ => ne_blobNameFor clock.uploadNow f.originalname⟩

/-- C10 witness: the response fields at a concrete successful upload
whose name holds a space. -/
theorem c10_filename_fields_witness :
    fileNameFieldOf (processUploadRequest envA collabOk clockA (some smallFile)).1.body =
      some smallFile.originalname ∧
    blobNameFieldOf (processUploadRequest envA collabOk clockA (some smallFile)).1.body =
      some (blobNameFor clockA.uploadNow smallFile.originalname) ∧
    smallFile.originalname ≠ blobNameFor clockA.uploadNow smallFile.originalname :=
  have h := c10_filename_fields envA collabOk keyA clockA smallFile rfl rfl rfl (by decide)
  ⟨h.1, h.2.1, h.2.2 (by decide)⟩

end ShareSafely
